import Mathlib

/-!
Shallow embedding of `src/aplikasi/aplikasi.py` (class `SLRCryptoApp`),
the credential-hashing and attack-simulation engine of the repository.

The digest primitives (`hashlib.sha256`, `hashlib.sha512`,
`hashlib.sha3_512`, `hashlib.blake2b`) are an external library, not code
of this repository; they are modelled as an abstract record of functions
from byte sequences to hexdigest strings (`Hashlib`), and every theorem
is stated for an arbitrary such record.  Randomness (`secrets.token_hex`,
i.e. `os.urandom`) is modelled by passing the drawn bytes explicitly.
Python float arithmetic in the avalanche percentage is modelled exactly
over `ℚ`.
-/

/-- UTF-8 encoding of one character, as `str.encode` performs per code
point (bytes as `Nat`). -/
def encodeChar (c : Char) : List Nat :=
  let n := c.toNat
  if n < 128 then [n]
  else if n < 2048 then [192 + n / 64, 128 + n % 64]
  else if n < 65536 then [224 + n / 4096, 128 + (n / 64) % 64, 128 + n % 64]
  else [240 + n / 262144, 128 + (n / 4096) % 64, 128 + (n / 64) % 64, 128 + n % 64]

/-- `s.encode("utf-8")`: the UTF-8 byte sequence of a string. -/
def encode (s : String) : List Nat :=
  s.data.flatMap encodeChar

/-- The external `hashlib` digest functions used by the program (line 1 and
lines 11-16, 31-36 of the source): each maps a byte sequence to its
hexdigest string.  Abstract, since `hashlib` is not part of the repository. -/
structure Hashlib where
  sha256 : List Nat → String
  sha512 : List Nat → String
  sha3_512 : List Nat → String
  blake2b : List Nat → String

/-- `self.algorithms` (source lines 11-16): the registry mapping the four
registered algorithm names to their digest functions. -/
def algorithms (lib : Hashlib) : List (String × (List Nat → String)) :=
  [("SHA-256", lib.sha256), ("SHA-512", lib.sha512),
   ("SHA-3-512", lib.sha3_512), ("Blake2b", lib.blake2b)]

/-- `hash_password(self, password, algo_type='sha3', salt=None)` (source
lines 23-36).  `if salt:` is Python truthiness: `None` and the empty
string both take the else branch.  The dispatch is exactly the source's:
`'blake2'` to blake2b, `'sha3'` to sha3_512, anything else to sha256. -/
def hash_password (lib : Hashlib) (password : String) (algo_type : String)
    (salt : Option String) : String :=
  let data : List Nat :=
    match salt with
    | some s => if s = "" then encode password else encode (password ++ s)
    | none => encode password
  if algo_type = "blake2" then lib.blake2b data
  else if algo_type = "sha3" then lib.sha3_512 data
  else lib.sha256 data

/-- One hex digit, lowercase, as `binascii.hexlify` renders it. -/
def hexDigit (n : Nat) : Char :=
  if n < 10 then Char.ofNat (48 + n) else Char.ofNat (87 + n)

/-- Hex rendering of a byte sequence: two lowercase hex characters per
byte, in order. -/
def bytesToHex : List Nat → List Char
  | [] => []
  | b :: rest => hexDigit (b / 16) :: hexDigit (b % 16) :: bytesToHex rest

/-- `secrets.token_hex(nbytes)`: draws `nbytes` random bytes and returns
their hex encoding.  The bytes drawn from the OS entropy source are
passed explicitly. -/
def token_hex (randomBytes : List Nat) : String :=
  ⟨bytesToHex randomBytes⟩

/-- `generate_salt(self, length=16)` (source lines 19-21): returns
`secrets.token_hex(length)`.  `randomBytes` are the `length` bytes the
entropy source produced for this call. -/
def generate_salt (length : Nat) (randomBytes : List Nat) : String :=
  let _ := length
  token_hex randomBytes

/-- A `self.user_database` entry (source lines 124-128, 131-135): the dict
`{'hash': ..., 'salt': ..., 'algo': ...}`. -/
structure Credential where
  hash : String
  salt : Option String
  algo : String
deriving Repr, DecidableEq

/-- The enrollment pattern `self.user_database[uid] = {'hash':
self.hash_password(pw, algo, salt), 'salt': salt, 'algo': algo}`. -/
def enrollUser (lib : Hashlib) (userId password algo : String)
    (salt : Option String) : String × Credential :=
  (userId, ⟨hash_password lib password algo salt, salt, algo⟩)

/-- `user_database['user_lemah']` (source lines 124-128): password
`"123456"`, algorithm `'sha256'`, no salt. -/
def user_lemah (lib : Hashlib) : String × Credential :=
  enrollUser lib "user_lemah" "123456" "sha256" none

/-- `user_database['user_aman']` (source lines 130-135): password
`"123456"`, algorithm `'sha3'`, salt from `generate_salt()` with its
default length 16. -/
def user_aman (lib : Hashlib) (randomBytes : List Nat) : String × Credential :=
  let salt := generate_salt 16 randomBytes
  enrollUser lib "user_aman" "123456" "sha3" (some salt)

/-- `common_passwords` (source line 138). -/
def common_passwords : List String :=
  ["123456", "password", "admin", "rahasia"]

/-- The parameter names of `hash_password` as defined at source line 23:
`def hash_password(self, password, algo_type='sha3', salt=None)`. -/
def hash_password_paramNames : List String :=
  ["self", "password", "algo_type", "salt"]

/-- The Python call `self.hash_password(pwd, algo=algoVal, salt=saltVal)`
as written at source lines 144 and 158.  Python binds a keyword argument
by parameter name and raises `TypeError` when the keyword matches no
parameter; the keyword used is `algo`, the parameter is `algo_type`. -/
def hash_password_kwcall (lib : Hashlib) (pwd algoVal : String)
    (saltVal : Option String) : Except String String :=
  if "algo" ∈ hash_password_paramNames ∧ "salt" ∈ hash_password_paramNames then
    Except.ok (hash_password lib pwd algoVal saltVal)
  else
    Except.error "TypeError: hash_password() got an unexpected keyword argument"

/-- The attacker loop (source lines 143-150 and 155-162): scan the
candidate list in order, hash each candidate, stop at the first whose
hash equals the stored hash (`break`); `none` when the list is exhausted.
An exception from the hash call aborts the loop. -/
def attack_loop (hashCandidate : String → Except String String)
    (storedHash : String) : List String → Except String (Option String)
  | [] => Except.ok none
  | pwd :: rest =>
    match hashCandidate pwd with
    | Except.error e => Except.error e
    | Except.ok calc_hash =>
      if calc_hash = storedHash then Except.ok (some pwd)
      else attack_loop hashCandidate storedHash rest

/-- The `user_lemah` attack run (source lines 141-150), with the hash call
written exactly as at line 144: `self.hash_password(pwd, algo='sha256',
salt=None)`. -/
def simulate_weak_attack (lib : Hashlib) : Except String (Option String) :=
  attack_loop (fun pwd => hash_password_kwcall lib pwd "sha256" none)
    (user_lemah lib).2.hash common_passwords

/-- The `user_aman` attack run (source lines 153-162), with the hash call
written exactly as at line 158: `self.hash_password(pwd, algo='sha3',
salt=self.user_database['user_aman']['salt'])`. -/
def simulate_salted_attack (lib : Hashlib) (randomBytes : List Nat) :
    Except String (Option String) :=
  attack_loop
    (fun pwd => hash_password_kwcall lib pwd "sha3" (user_aman lib randomBytes).2.salt)
    (user_aman lib randomBytes).2.hash common_passwords

/-- `demonstrate_avalanche_effect` (source lines 62-77): both hexdigests
under `hashlib.sha3_512`, the count of differing characters over
`zip(hash1, hash2)`, divided by `len(hash1)` and scaled to percent.
Python float division is modelled exactly over `ℚ`. -/
def demonstrate_avalanche_effect (lib : Hashlib) (text1 text2 : String) : ℚ :=
  let hash1 := lib.sha3_512 (encode text1)
  let hash2 := lib.sha3_512 (encode text2)
  let diff_count := (hash1.data.zip hash2.data).countP (fun ab => ab.1 != ab.2)
  let total_chars := hash1.length
  ((diff_count : ℚ) / (total_chars : ℚ)) * 100

/-- A concrete instance of the abstract digest record, used only to
evaluate theorems at concrete inputs: tagged hex dumps, deterministic and
distinct per algorithm. -/
def toyDigest (tag : Nat) (bytes : List Nat) : String :=
  token_hex (tag :: bytes)

/-- Concrete digest record for evaluation. -/
def toyLib : Hashlib :=
  ⟨toyDigest 1, toyDigest 2, toyDigest 3, toyDigest 4⟩

-- scratch checks
example : encode "ab" = [97, 98] := by decide
example : hash_password toyLib "a" "sha3" (some "b") = toyLib.sha3_512 [97, 98] := by rfl
example : (generate_salt 2 [0, 255]) = "00ff" := by decide
example : simulate_weak_attack toyLib =
    Except.error "TypeError: hash_password() got an unexpected keyword argument" := by rfl

/-! ## Helper lemmas -/

theorem data_append (a b : String) : (a ++ b).data = a.data ++ b.data := rfl

theorem encode_append (a b : String) : encode (a ++ b) = encode a ++ encode b := by
  simp [encode, data_append]

theorem encode_empty : encode "" = [] := rfl

theorem bytesToHex_length (bs : List Nat) : (bytesToHex bs).length = 2 * bs.length := by
  induction bs with
  | nil => rfl
  | cons b rest ih => simp [bytesToHex, ih]; ring

theorem hash_password_eq (lib : Hashlib) (p : String) (a : String) (s : Option String) :
    hash_password lib p a s =
      (if a = "blake2" then lib.blake2b else
       if a = "sha3" then lib.sha3_512 else lib.sha256)
      (match s with
       | some t => if t = "" then encode p else encode (p ++ t)
       | none => encode p) := by
  cases s <;> simp only [hash_password] <;>
    by_cases h1 : a = "blake2" <;> by_cases h2 : a = "sha3" <;> simp [h1, h2]

/-! ## Claim theorems -/

/-- Claim C2: for each algorithm identifier the program dispatches on
(`'blake2'`, `'sha3'`, `'sha256'`), the digest returned by
`hash_password` with a present (non-null) salt is the corresponding
digest function applied to the byte concatenation of the password bytes
followed by the salt bytes; with no salt, it is the digest of the
password bytes alone. -/
theorem hash_password_material_is_password_then_salt
    (lib : Hashlib) (p s : String) :
    hash_password lib p "blake2" (some s) = lib.blake2b (encode p ++ encode s) ∧
    hash_password lib p "sha3" (some s) = lib.sha3_512 (encode p ++ encode s) ∧
    hash_password lib p "sha256" (some s) = lib.sha256 (encode p ++ encode s) ∧
    hash_password lib p "blake2" none = lib.blake2b (encode p) ∧
    hash_password lib p "sha3" none = lib.sha3_512 (encode p) ∧
    hash_password lib p "sha256" none = lib.sha256 (encode p) := by
  by_cases hs : s = "" <;>
    simp [hash_password, hs, encode_append, encode_empty]

/-- Claim C5: `hash_password` is a pure function of its arguments, so two
calls with the same `(password, algo_type, salt)` triple yield identical
digests; in particular two enrollments of different user ids with the
same password, no salt, and the same algorithm store identical digests. -/
theorem hash_password_deterministic
    (lib : Hashlib) (p a : String) (s : Option String) (u1 u2 : String) :
    hash_password lib p a s = hash_password lib p a s ∧
    (enrollUser lib u1 p a none).2.hash = (enrollUser lib u2 p a none).2.hash :=
  ⟨rfl, rfl⟩

/-- Claim C9: the empty-string salt takes the same branch of
`if salt:` as `None` (Python truthiness), so `hash_password` with
`salt=""` equals `hash_password` with `salt=None` for every password and
algorithm identifier. -/
theorem empty_salt_equals_no_salt (lib : Hashlib) (p a : String) :
    hash_password lib p a (some "") = hash_password lib p a none := by
  simp [hash_password]

/-- Claim C10: for a non-empty salt the salted hash is exactly the
unsalted hash of the string concatenation password ++ salt, and hence any
two (password, salt) pairs with equal concatenations produce identical
digests. -/
theorem salted_hash_equals_unsalted_concat
    (lib : Hashlib) (a p s p2 s2 : String) (hs : s ≠ "") (hs2 : s2 ≠ "") :
    hash_password lib p a (some s) = hash_password lib (p ++ s) a none ∧
    (p ++ s = p2 ++ s2 →
      hash_password lib p a (some s) = hash_password lib p2 a (some s2)) := by
  constructor
  · simp [hash_password, hs]
  · intro h
    simp [hash_password, hs, hs2, h]

/-- Claim C10 witness: evaluated at `p="ab", s="cd"` and `p2="abc",
s2="d"`, whose concatenations agree. -/
theorem salted_hash_equals_unsalted_concat_witness :
    hash_password toyLib "ab" "sha3" (some "cd") =
      hash_password toyLib "abc" "sha3" (some "d") :=
  (salted_hash_equals_unsalted_concat toyLib "sha3" "ab" "cd" "abc" "d"
    (by decide) (by decide)).2 (by decide)

/-- Claim C1 counterexample: `"md5"` is not a registered algorithm name
(it is not a key of `self.algorithms`), yet `hash_password` called with
`algo_type="md5"` returns a digest — the SHA-256 digest of the password
bytes, identical to calling with `"sha256"` — instead of signalling any
error.  The function has no error path at all. -/
theorem hash_password_md5_returns_digest :
    "md5" ∉ (algorithms toyLib).map Prod.fst ∧
    hash_password toyLib "123456" "md5" none = toyLib.sha256 (encode "123456") ∧
    hash_password toyLib "123456" "md5" none =
      hash_password toyLib "123456" "sha256" none :=
  ⟨by decide, rfl, rfl⟩

/-- Claim C1 (amended): `hash_password` never signals an error; every
`algo_type` other than `'blake2'` and `'sha3'` — including identifiers
outside the registered set — falls through to the SHA-256 branch and
returns the same digest as `algo_type='sha256'`. -/
theorem hash_password_unknown_algo_falls_back_to_sha256
    (lib : Hashlib) (p : String) (s : Option String) (a : String)
    (h1 : a ≠ "blake2") (h2 : a ≠ "sha3") :
    hash_password lib p a s = hash_password lib p "sha256" s := by
  cases s <;> simp [hash_password, h1, h2]

/-- Claim C1 witness: the fallback theorem applied at the unregistered
identifier `"md5"`. -/
theorem hash_password_unknown_algo_falls_back_witness :
    hash_password toyLib "pw" "md5" (some "aa") =
      hash_password toyLib "pw" "sha256" (some "aa") :=
  hash_password_unknown_algo_falls_back_to_sha256 toyLib "pw" (some "aa") "md5"
    (by decide) (by decide)

/-- Claim C3 (bug evaluation): the `user_lemah` attack run never compares
a single hash — its very first candidate call, written at source line 144
as `self.hash_password(pwd, algo='sha256', salt=None)`, uses the keyword
`algo`, which matches no parameter of `hash_password` (the parameter is
`algo_type`), so Python raises `TypeError` and the loop aborts without
iterating the dictionary. -/
theorem simulate_weak_attack_raises_type_error (lib : Hashlib) :
    simulate_weak_attack lib =
      Except.error "TypeError: hash_password() got an unexpected keyword argument" :=
  rfl

/-- Claim C4 (bug evaluation): the `user_aman` attack run, whose hash
call at source line 158 is `self.hash_password(pwd, algo='sha3',
salt=...)`, aborts with the same `TypeError` on its first candidate
`"123456"`; the match branch for the enrolled password is never reached
(and in the real program this loop is not even entered, since the
`user_lemah` loop already raised). -/
theorem simulate_salted_attack_raises_type_error
    (lib : Hashlib) (randomBytes : List Nat) :
    simulate_salted_attack lib randomBytes =
      Except.error "TypeError: hash_password() got an unexpected keyword argument" :=
  rfl

/-- Claim C6: `generate_salt(length)` returns `secrets.token_hex(length)`,
the hex encoding of `length` random bytes, a string of exactly
`2 * length` characters. -/
theorem generate_salt_hex_length (length : Nat) (randomBytes : List Nat)
    (h : randomBytes.length = length) :
    (generate_salt length randomBytes).length = 2 * length := by
  have : (generate_salt length randomBytes).length = (bytesToHex randomBytes).length := rfl
  rw [this, bytesToHex_length, h]

/-- Claim C6 witness: three random bytes hex-encode to six characters. -/
theorem generate_salt_hex_length_witness :
    (generate_salt 3 [0, 171, 255]).length = 2 * 3 :=
  generate_salt_hex_length 3 [0, 171, 255] (by decide)

/-- Claim C8: both credentials stored by the simulation satisfy the store
invariant — the stored `hash` field equals `hash_password` applied to the
enrollment-time password `"123456"`, the stored `algo`, and the stored
`salt`; for the unsalted `user_lemah` entry and the salted `user_aman`
entry alike, whatever bytes the salt generator drew. -/
theorem enrolled_credentials_satisfy_store_invariant
    (lib : Hashlib) (randomBytes : List Nat) :
    (user_lemah lib).2.hash =
      hash_password lib "123456" (user_lemah lib).2.algo (user_lemah lib).2.salt ∧
    (user_aman lib randomBytes).2.hash =
      hash_password lib "123456" (user_aman lib randomBytes).2.algo
        (user_aman lib randomBytes).2.salt :=
  ⟨rfl, rfl⟩

/-- Claim C7: the avalanche percentage — 100 times the count of differing
hex-character positions over the total character count of the first
digest — lies in [0, 100] whenever the digest is non-empty, and equals
exactly 0 when the two input texts are identical. -/
theorem avalanche_diff_percentage_bounds
    (lib : Hashlib) (text1 text2 : String)
    (h : 0 < (lib.sha3_512 (encode text1)).length) :
    (0 ≤ demonstrate_avalanche_effect lib text1 text2 ∧
      demonstrate_avalanche_effect lib text1 text2 ≤ 100) ∧
    (text1 = text2 → demonstrate_avalanche_effect lib text1 text2 = 0) := by
  constructor
  · set hash1 := lib.sha3_512 (encode text1) with hh1
    set hash2 := lib.sha3_512 (encode text2) with hh2
    set d := (hash1.data.zip hash2.data).countP (fun ab => ab.1 != ab.2) with hd
    have hdt : d ≤ hash1.length := by
      calc d ≤ (hash1.data.zip hash2.data).length := List.countP_le_length _
        _ = min hash1.data.length hash2.data.length := List.length_zip _ _
        _ ≤ hash1.data.length := min_le_left _ _
        _ = hash1.length := rfl
    have hq : demonstrate_avalanche_effect lib text1 text2 =
        ((d : ℚ) / (hash1.length : ℚ)) * 100 := rfl
    constructor
    · rw [hq]
      positivity
    · rw [hq]
      have hpos : (0 : ℚ) < (hash1.length : ℚ) := by exact_mod_cast h
      have h1 : (d : ℚ) / (hash1.length : ℚ) ≤ 1 := by
        rw [div_le_one hpos]
        exact_mod_cast hdt
      calc ((d : ℚ) / (hash1.length : ℚ)) * 100 ≤ 1 * 100 :=
            mul_le_mul_of_nonneg_right h1 (by norm_num)
        _ = 100 := by norm_num
  · intro he
    subst he
    have hzip : ∀ l : List Char,
        (l.zip l).countP (fun ab => ab.1 != ab.2) = 0 := by
      intro l
      induction l with
      | nil => rfl
      | cons c rest ih => simp [List.zip_cons_cons, List.countP_cons, ih]
    have hq : demonstrate_avalanche_effect lib text1 text1 =
        (((((lib.sha3_512 (encode text1)).data.zip
            (lib.sha3_512 (encode text1)).data).countP
            (fun ab => ab.1 != ab.2) : ℚ)) /
          ((lib.sha3_512 (encode text1)).length : ℚ)) * 100 := rfl
    rw [hq, hzip]
    norm_num

/-- Claim C7 witness: the bounds theorem applied at the concrete digest
record and texts `"a"`, `"b"` (digest length 4, percentage 25). -/
theorem avalanche_diff_percentage_bounds_witness :
    (0 ≤ demonstrate_avalanche_effect toyLib "a" "b" ∧
      demonstrate_avalanche_effect toyLib "a" "b" ≤ 100) ∧
    ("a" = "b" → demonstrate_avalanche_effect toyLib "a" "b" = 0) :=
  avalanche_diff_percentage_bounds toyLib "a" "b" (by decide)
